import Mathlib

/-!
Verification of the rendering-and-delivery core of the myach-pro backend.

Shallow embedding of:
* `SimpleBotMessagingService` (delivery dispatcher: `sendImage`,
  `handleImageTask`, `validateImageBuffer`);
* `generateImageInWorker` and the worker message handler (isolated renderer);
* `ImageGenerationService` (render orchestrator: `getClubAndPlayersData`,
  `generateHTML`, `generateResultsImage`, and the resource cache
  `loadFontAsBase64` / `isCacheValid`).

Byte buffers are `List Nat` (byte values).  The base64 round trip that the
source performs when a task crosses the Redis queue
(`imageBuffer.toString('base64')` / `Buffer.from(task.imageBuffer, 'base64')`)
is a lossless injection, so a task carries its byte sequence directly.
Broker / messaging side effects are recorded in explicit traces so that
claims about "no broker interaction", poll counts and result writes are
genuine statements about what the code does, not about the model's shape.
-/

namespace MyachPro

/-- A delivery task as built in `sendImage` (worker-process branch).
The source stores the buffer base64-encoded; the round trip is lossless. -/
structure ImageTask where
  id : String
  chatId : Int
  imageBuffer : List Nat
  caption : String
  timestamp : Nat
  deriving Repr, DecidableEq

/-- The JSON value `setex` stores under `image_result:<taskId>`.
(`timestamp` is also stored; it is irrelevant to every claim.) -/
structure StoredResult where
  success : Bool
  error : Option String
  deriving Repr, DecidableEq

/-- `validateImageBuffer`: the JPEG-marker check on the first three bytes
(`buffer.subarray(0, 3)`). -/
def jpegMarkerOk : List Nat → Bool
  | b0 :: b1 :: b2 :: _ => b0 == 0xFF && b1 == 0xD8 && b2 == 0xFF
  | _ => false

/-- `SimpleBotMessagingService.validateImageBuffer`.  The null/`isBuffer`
checks are type-level in the embedding.  The source compares
`buffer.length / (1024*1024) > 20` with exact float division, which on
integer lengths is equivalent to `20 * 1024 * 1024 < length`. -/
def validateImageBuffer (buffer : List Nat) : Bool :=
  if buffer.length = 0 then false
  else if buffer.length < 1024 then false
  else if 20 * 1024 * 1024 < buffer.length then false
  else jpegMarkerOk buffer

/-- One observable broker / messaging interaction of a `sendImage` call. -/
inductive Effect where
  | push (t : ImageTask)
  | pollSlot (id : String)
  | delSlot (id : String)
  | directSend
  deriving Repr, DecidableEq

/-- Environment of one `sendImage` call: process role, bot availability,
the outcome of a direct `botService.sendImage` call (`Except` error = the
call threw), the generated task id, the current time, and what
`get('image_result:<id>')` returns at the i-th poll. -/
structure SendEnv where
  isMasterProcess : Bool
  botAvailable : Bool
  directSend : Except String Bool
  taskId : String
  now : Nat
  resultAt : Nat → Option StoredResult

/-- The poll loop body: first index `i` (starting at `s`, up to `fuel` more
attempts) at which the result slot is non-empty. -/
def findResult (resultAt : Nat → Option StoredResult) : Nat → Nat → Option (Nat × StoredResult)
  | 0, _ => none
  | fuel + 1, s =>
    match resultAt s with
    | some r => some (s, r)
    | none => findResult resultAt fuel (s + 1)

/-- The worker-process branch of `sendImage`: build the task, `rpush` it,
then poll `image_result:<taskId>` up to 450 times; on a hit, `del` the slot
and return the stored success flag; otherwise return `false`. -/
def enqueueAndPoll (env : SendEnv) (chatId : Int) (buffer : List Nat) (caption : String) :
    Bool × List Effect :=
  let task : ImageTask :=
    { id := env.taskId, chatId := chatId, imageBuffer := buffer,
      caption := caption, timestamp := env.now }
  match findResult env.resultAt 450 0 with
  | some (i, r) =>
    (r.success,
      Effect.push task :: (List.replicate (i + 1) (Effect.pollSlot env.taskId) ++
        [Effect.delSlot env.taskId]))
  | none =>
    (false, Effect.push task :: List.replicate 450 (Effect.pollSlot env.taskId))

/-- `SimpleBotMessagingService.sendImage`: validate first; in the master
process with an available bot, send directly (a thrown send is caught and
becomes `false`); otherwise enqueue and poll.  The value is the returned
boolean together with the trace of broker / messaging interactions. -/
def sendImage (env : SendEnv) (chatId : Int) (buffer : List Nat) (caption : String) :
    Bool × List Effect :=
  if validateImageBuffer buffer = false then
    (false, [])
  else if env.isMasterProcess && env.botAvailable then
    match env.directSend with
    | .ok b => (b, [Effect.directSend])
    | .error _ => (false, [Effect.directSend])
  else
    enqueueAndPoll env chatId buffer caption

/-- A result write performed by the consumer (`setex key ttl value`). -/
structure WriteOp where
  key : String
  ttlSeconds : Nat
  value : StoredResult
  deriving Repr, DecidableEq

/-- One observable action of `handleImageTask`. -/
inductive HOp where
  | send
  | write (w : WriteOp)
  deriving Repr, DecidableEq

/-- Environment of the owning-process consumer: bot availability and the
outcome of `botService.sendImage` (`Except` error = the send threw with
that message). -/
structure HandleEnv where
  botAvailable : Bool
  sendOutcome : Except String Bool

/-- `SimpleBotMessagingService.handleImageTask`.  The `finally` block always
runs, so every path ends with a `setex` of the result keyed by the task id
with a 60 second TTL; `error: errorMessage || undefined` means a send that
returns `false` without throwing stores no error string, and a send that
throws with an empty message also stores no error string (JS `''` is
falsy, so `'' || undefined` omits the field).  Base64 decoding of the
queued payload is total in the embedding (the queue only ever holds
payloads produced by `toString('base64')`). -/
def handleImageTask (env : HandleEnv) (task : ImageTask) : List HOp :=
  let key := "image_result:" ++ task.id
  if env.botAvailable = false then
    [HOp.write ⟨key, 60, ⟨false, some "Bot service недоступен при обработке задачи"⟩⟩]
  else if validateImageBuffer task.imageBuffer = false then
    [HOp.write ⟨key, 60, ⟨false, some "Buffer невалиден после конвертации из base64"⟩⟩]
  else
    match env.sendOutcome with
    | .ok b => [HOp.send, HOp.write ⟨key, 60, ⟨b, none⟩⟩]
    | .error msg =>
      [HOp.send, HOp.write ⟨key, 60, ⟨false, if msg = "" then none else some msg⟩⟩]

/-- The result writes of a consumer run. -/
def writesOf (ops : List HOp) : List WriteOp :=
  ops.filterMap fun o => match o with | HOp.write w => some w | HOp.send => none

/-- Whether a consumer run reached the external send call. -/
def sendAttempted (ops : List HOp) : Bool :=
  ops.any fun o => match o with | HOp.send => true | _ => false

/-- Number of queue pushes in a `sendImage` trace. -/
def countPushes (tr : List Effect) : Nat :=
  tr.countP fun e => match e with | Effect.push _ => true | _ => false

/-- Number of result-slot polls in a `sendImage` trace. -/
def countPolls (tr : List Effect) : Nat :=
  tr.countP fun e => match e with | Effect.pollSlot _ => true | _ => false

/-- A valid 1 KiB JPEG-marked buffer used as a concrete input. -/
def cbuf1KB : List Nat := 0xFF :: 0xD8 :: 0xFF :: List.replicate 1021 0

/-- A 2 MiB buffer starting with the JPEG marker. -/
def cbuf2MB : List Nat := 0xFF :: 0xD8 :: 0xFF :: List.replicate 2097149 0

/-! ### Isolated renderer (`imageWorker.ts`) -/

/-- The options object passed to `page.screenshot` by the worker message
handler: `type: 'jpeg'`, `quality: Math.max(85, Math.min(100, quality))`,
a clip rectangle, and no `fullPage` (removed in the source; puppeteer's
default is `false`). -/
structure ScreenshotOpts where
  imgType : String
  quality : Nat
  clipX : Nat
  clipY : Nat
  clipWidth : Nat
  clipHeight : Nat
  fullPage : Bool
  deriving Repr, DecidableEq

/-- The `page.screenshot` argument built by the worker for a request with
the given viewport and caller-requested quality. -/
def screenshotOpts (viewportWidth viewportHeight quality : Nat) : ScreenshotOpts :=
  { imgType := "jpeg"
    quality := max 85 (min 100 quality)
    clipX := 0
    clipY := 0
    clipWidth := viewportWidth
    clipHeight := viewportHeight
    fullPage := false }

/-- An event that can settle the promise of `generateImageInWorker`:
a worker message, a worker `error` event, a worker `exit` event, or the
60 s timeout firing. -/
inductive WorkerEvent where
  | message (success : Bool) (imageBuffer : Option (List Nat)) (error : Option String)
  | workerError (msg : String)
  | exited (code : Nat)
  | timeout
  deriving Repr, DecidableEq

/-- The message of the rejection `new Error(result.error || 'Worker failed')`:
JS `||` replaces an absent or empty string. -/
def failureMessage : Option String → String
  | some m => if m == "" then "Worker failed" else m
  | none => "Worker failed"

/-- The message of the timeout rejection in `generateImageInWorker`. -/
def workerTimeoutMsg : String :=
  "Worker timeout: генерация изображения заняла слишком много времени"

/-- How `generateImageInWorker` settles its promise on a given event:
`some (.ok bytes)` = resolve, `some (.error m)` = reject, `none` = the
event settles nothing (an `exit` with code 0 only clears the timeout). -/
def settleEvent : WorkerEvent → Option (Except String (List Nat))
  | .message true (some buf) _ => some (.ok buf)
  | .message true none err => some (.error (failureMessage err))
  | .message false _ err => some (.error (failureMessage err))
  | .workerError m => some (.error m)
  | .exited 0 => none
  | .exited c => some (.error ("Worker stopped with exit code " ++ toString c))
  | .timeout => some (.error workerTimeoutMsg)

/-- Whether the handler of the event calls `worker.terminate()`
(message and error handlers do, the timeout callback does, the exit
handler does not — the worker is already gone). -/
def terminatesWorker : WorkerEvent → Bool
  | .message _ _ _ => true
  | .workerError _ => true
  | .exited _ => false
  | .timeout => true

/-- A promise settles on the first settling event. -/
def firstSettle : List WorkerEvent → Option (Except String (List Nat))
  | [] => none
  | e :: es =>
    match settleEvent e with
    | some r => some r
    | none => firstSettle es

/-- The message the worker posts back for a given render outcome: on
success `{success: true, imageBuffer}`, on a caught in-worker exception
(engine launch failure included) `{success: false, error: message}`. -/
def workerReply : Except String (List Nat) → WorkerEvent
  | .ok buf => .message true (some buf) none
  | .error m => .message false none (some m)

/-! ### Render orchestrator (`imageGeneration.service.ts`) -/

structure Club where
  name : String
  logo : Option String
  deriving Repr, DecidableEq

structure Player where
  id : String
  name : String
  avatar : Option String
  deriving Repr, DecidableEq

/-- The external read-only data capability (`prisma.club.findUnique`,
`prisma.players.findMany`). -/
structure DB where
  findClub : String → Option Club
  findPlayers : List String → List Player

/-- `ShareImageData`: the render request.  `categorizedPlayerIds` is the
JS object, as an association list in key order. -/
structure ShareImageData where
  categorizedPlayerIds : List (String × List String)
  categories : List (String × String × Nat)
  clubId : String

/-- One observable action of the orchestrator: a storage batch-URL call
(`getBatchFastUrls` for logos or avatars) or the renderer invocation. -/
inductive OrchOp where
  | logoBatch (keys : List String)
  | avatarBatch (keys : List String)
  | renderCall
  deriving Repr, DecidableEq

/-- The resolved club data returned by `getClubAndPlayersData` (the players
map is irrelevant to the claims; the club record carries the name the
orchestrator returns). -/
structure ClubData where
  club : Club
  deriving Repr, DecidableEq

/-- `ImageGenerationService.getClubAndPlayersData`: look up the club
(absent → throw `'Клуб не найден'`), fetch the players of the flattened
id list, then issue exactly one logo batch call and one avatar batch call
(`Promise.all` of two `getBatchFastUrls`). -/
def getClubAndPlayersData (db : DB) (data : ShareImageData) :
    Except String ClubData × List OrchOp :=
  match db.findClub data.clubId with
  | none => (.error "Клуб не найден", [])
  | some club =>
    let allPlayerIds := (data.categorizedPlayerIds.map Prod.snd).flatten
    let players := db.findPlayers allPlayerIds
    let logoKeys := match club.logo with | some l => [l] | none => []
    let avatarKeys := players.filterMap (·.avatar)
    (.ok ⟨club⟩, [OrchOp.logoBatch logoKeys, OrchOp.avatarBatch avatarKeys])

/-- `ImageGenerationService.generateHTML`: calls `getClubAndPlayersData`
again, then assembles the markup from process-local cached resources (no
further storage batch calls).  Only the error and the operation trace
matter to the claims, not the markup text. -/
def generateHTML (db : DB) (data : ShareImageData) :
    Except String Unit × List OrchOp :=
  match getClubAndPlayersData db data with
  | (.error e, tr) => (.error e, tr)
  | (.ok _, tr) => (.ok (), tr)

/-- `ImageGenerationService.generateResultsImage`: fetch the club data,
generate the HTML (which fetches it again), then render in the worker;
the `catch` logs and rethrows, so errors propagate unchanged.  `renderer`
is the outcome of `generateImageInWorker`. -/
def generateResultsImage (db : DB) (renderer : Except String (List Nat))
    (data : ShareImageData) :
    Except String (List Nat × String) × List OrchOp :=
  match getClubAndPlayersData db data with
  | (.error e, tr₁) => (.error e, tr₁)
  | (.ok cd, tr₁) =>
    match generateHTML db data with
    | (.error e, tr₂) => (.error e, tr₁ ++ tr₂)
    | (.ok _, tr₂) =>
      match renderer with
      | .ok bytes => (.ok (bytes, cd.club.name), tr₁ ++ tr₂ ++ [OrchOp.renderCall])
      | .error e => (.error e, tr₁ ++ tr₂ ++ [OrchOp.renderCall])

/-- Number of logo batch calls in an orchestrator trace. -/
def countLogoBatches (tr : List OrchOp) : Nat :=
  tr.countP fun o => match o with | OrchOp.logoBatch _ => true | _ => false

/-- Number of avatar batch calls in an orchestrator trace. -/
def countAvatarBatches (tr : List OrchOp) : Nat :=
  tr.countP fun o => match o with | OrchOp.avatarBatch _ => true | _ => false

/-! ### Resource cache (`loadFontAsBase64` / `isCacheValid`) -/

/-- `resourcesCache.ttl`: one hour in milliseconds. -/
def resourceTTL : Nat := 60 * 60 * 1000

/-- `isCacheValid(timestamp)`: `Date.now() - timestamp < ttl` (JS numbers;
for `now ≥ ts` this is exactly truncated `Nat` subtraction, and for
`now < ts` both sides are below the TTL). -/
def isCacheValid (now ts : Nat) : Bool := now - ts < resourceTTL

/-- A cached font entry `{data, timestamp}`. -/
structure CacheEntry where
  data : String
  timestamp : Nat
  deriving Repr, DecidableEq

/-- Result of one `loadFontAsBase64` call: the returned string, the cache
afterwards, and how many file reads and existence probes it performed.
The file system maps a font name to its encoded content when present
(`fs.promises.access` then `readFile` + `toString('base64')`). -/
structure LoadOut where
  result : String
  cache : List (String × CacheEntry)
  reads : Nat
  probes : Nat
  deriving Repr, DecidableEq

/-- `ImageGenerationService.loadFontAsBase64`: a valid cached entry is
returned with no I/O; otherwise probe the file — absent caches `""`
(1 probe, 0 reads), present reads and caches the encoded content
(1 probe, 1 read).  `Map.set` is modelled by a shadowing prepend. -/
def loadFontAsBase64 (fsFiles : String → Option String) (now : Nat)
    (cache : List (String × CacheEntry)) (name : String) : LoadOut :=
  match cache.lookup name with
  | some e =>
    if isCacheValid now e.timestamp then ⟨e.data, cache, 0, 0⟩
    else
      match fsFiles name with
      | none => ⟨"", (name, ⟨"", now⟩) :: cache, 0, 1⟩
      | some s => ⟨s, (name, ⟨s, now⟩) :: cache, 1, 1⟩
  | none =>
    match fsFiles name with
    | none => ⟨"", (name, ⟨"", now⟩) :: cache, 0, 1⟩
    | some s => ⟨s, (name, ⟨s, now⟩) :: cache, 1, 1⟩

/-! ### Concrete inputs used by witnesses and counterexamples -/

/-- Owning process with the messaging channel unavailable, no result ever
posted to the slot. -/
def cenvC1 : SendEnv :=
  { isMasterProcess := true, botAvailable := false, directSend := .ok true,
    taskId := "task-c1", now := 0, resultAt := fun _ => none }

/-- Non-owning process; a successful result appears at the third poll. -/
def cenvC4 : SendEnv :=
  { isMasterProcess := false, botAvailable := false, directSend := .ok false,
    taskId := "task-c4", now := 0,
    resultAt := fun i => if i == 2 then some ⟨true, none⟩ else none }

/-- A store with no clubs at all. -/
def dbEmpty : DB := { findClub := fun _ => none, findPlayers := fun _ => [] }

/-- A store holding exactly the club `"c1"` (no logo) and no players. -/
def dbC1 : DB :=
  { findClub := fun i => if i == "c1" then some ⟨"Club One", none⟩ else none,
    findPlayers := fun _ => [] }

/-- A request against the missing club id. -/
def dataMissing : ShareImageData :=
  { categorizedPlayerIds := [], categories := [], clubId := "missing" }

/-- A one-category request against club `"c1"`. -/
def dataC1 : ShareImageData :=
  { categorizedPlayerIds := [("GOAT", [])],
    categories := [("GOAT", "#ffffff", 6)], clubId := "c1" }

/-- A file system holding one font file with encoded content `"QUJD"`. -/
def fsOneFont : String → Option String :=
  fun n => if n == "Montserrat-Regular.ttf" then some "QUJD" else none

end MyachPro

namespace MyachPro

/-! ### Helper lemmas -/

theorem validateImageBuffer_marker (rest : List Nat)
    (hlen : 1021 ≤ rest.length) (hub : rest.length + 3 ≤ 20971520) :
    validateImageBuffer (0xFF :: 0xD8 :: 0xFF :: rest) = true := by
  have hl : (0xFF :: 0xD8 :: 0xFF :: rest).length = rest.length + 3 := by
    rw [List.length_cons, List.length_cons, List.length_cons]
  unfold validateImageBuffer
  rw [hl]
  rw [if_neg (show ¬(rest.length + 3 = 0) by omega)]
  rw [if_neg (show ¬(rest.length + 3 < 1024) by omega)]
  rw [if_neg (show ¬(20 * 1024 * 1024 < rest.length + 3) by omega)]
  rfl

theorem validate_cbuf1KB : validateImageBuffer cbuf1KB = true := by
  apply validateImageBuffer_marker
  all_goals rw [List.length_replicate]
  all_goals omega

theorem validate_cbuf2MB : validateImageBuffer cbuf2MB = true := by
  apply validateImageBuffer_marker
  all_goals rw [List.length_replicate]
  all_goals omega

theorem countP_replicate (p : MyachPro.Effect → Bool) (a : Effect) (n : Nat) :
    (List.replicate n a).countP p = if p a then n else 0 := by
  induction n with
  | zero => simp
  | succ n ih =>
    rw [List.replicate_succ, List.countP_cons, ih]
    by_cases h : p a = true <;> simp [h]

theorem findResult_eq_none (resultAt : Nat → Option StoredResult) :
    ∀ (fuel s : Nat), (∀ j, s ≤ j → j < s + fuel → resultAt j = none) →
      findResult resultAt fuel s = none := by
  intro fuel
  induction fuel with
  | zero => intro s _; rfl
  | succ f ih =>
    intro s h
    rw [findResult]
    have hs : resultAt s = none := h s (Nat.le_refl s) (by omega)
    rw [hs]
    exact ih (s + 1) (fun j h1 h2 => h j (by omega) (by omega))

theorem findResult_eq_some (resultAt : Nat → Option StoredResult) :
    ∀ (fuel s i : Nat) (r : StoredResult), s ≤ i → i < s + fuel →
      resultAt i = some r → (∀ j, s ≤ j → j < i → resultAt j = none) →
      findResult resultAt fuel s = some (i, r) := by
  intro fuel
  induction fuel with
  | zero => intro s i r h1 h2 _ _; omega
  | succ f ih =>
    intro s i r h1 h2 hr hmin
    rw [findResult]
    by_cases hsi : s = i
    · subst hsi; rw [hr]
    · have hs : resultAt s = none := hmin s (Nat.le_refl s) (by omega)
      rw [hs]
      exact ih (s + 1) i r (by omega) (by omega) hr
        (fun j hj1 hj2 => hmin j (by omega) hj2)

theorem findResult_bound (resultAt : Nat → Option StoredResult) :
    ∀ (fuel s i : Nat) (r : StoredResult),
      findResult resultAt fuel s = some (i, r) →
      s ≤ i ∧ i < s + fuel ∧ resultAt i = some r := by
  intro fuel
  induction fuel with
  | zero => intro s i r h; exact absurd h (by rw [findResult]; simp)
  | succ f ih =>
    intro s i r h
    rw [findResult] at h
    cases hs : resultAt s with
    | some r0 =>
      rw [hs] at h
      injection h with h'
      injection h' with h1 h2
      subst h1; subst h2
      exact ⟨Nat.le_refl s, by omega, hs⟩
    | none =>
      rw [hs] at h
      obtain ⟨h1, h2, h3⟩ := ih (s + 1) i r h
      exact ⟨by omega, by omega, h3⟩

theorem sendImage_eq_enqueue (env : SendEnv) (chatId : Int) (buffer : List Nat)
    (caption : String) (hv : validateImageBuffer buffer = true)
    (hng : (env.isMasterProcess && env.botAvailable) = false) :
    sendImage env chatId buffer caption = enqueueAndPoll env chatId buffer caption := by
  unfold sendImage
  rw [hv, hng]
  rw [if_neg (show ¬(true = false) from fun h => Bool.noConfusion h)]
  rw [if_neg (show ¬(false = true) from fun h => Bool.noConfusion h)]

theorem enqueueAndPoll_eq_none (env : SendEnv) (chatId : Int) (buffer : List Nat)
    (caption : String) (h : findResult env.resultAt 450 0 = none) :
    enqueueAndPoll env chatId buffer caption =
      (false, Effect.push ⟨env.taskId, chatId, buffer, caption, env.now⟩ ::
        List.replicate 450 (Effect.pollSlot env.taskId)) := by
  unfold enqueueAndPoll
  rw [h]

theorem enqueueAndPoll_eq_some (env : SendEnv) (chatId : Int) (buffer : List Nat)
    (caption : String) (i : Nat) (r : StoredResult)
    (h : findResult env.resultAt 450 0 = some (i, r)) :
    enqueueAndPoll env chatId buffer caption =
      (r.success, Effect.push ⟨env.taskId, chatId, buffer, caption, env.now⟩ ::
        (List.replicate (i + 1) (Effect.pollSlot env.taskId) ++
          [Effect.delSlot env.taskId])) := by
  unfold enqueueAndPoll
  rw [h]

theorem countPolls_trace_none (t : ImageTask) (id : String) :
    countPolls (Effect.push t :: List.replicate 450 (Effect.pollSlot id)) = 450 := by
  unfold countPolls
  rw [List.countP_cons, countP_replicate]
  norm_num

theorem countPolls_trace_some (t : ImageTask) (id : String) (i : Nat) :
    countPolls (Effect.push t ::
      (List.replicate (i + 1) (Effect.pollSlot id) ++ [Effect.delSlot id])) = i + 1 := by
  unfold countPolls
  rw [List.countP_cons, List.countP_append, countP_replicate]
  norm_num [List.countP_cons]

theorem countPushes_trace_none (t : ImageTask) (id : String) :
    countPushes (Effect.push t :: List.replicate 450 (Effect.pollSlot id)) = 1 := by
  unfold countPushes
  rw [List.countP_cons, countP_replicate]
  norm_num

theorem countPushes_trace_some (t : ImageTask) (id : String) (i : Nat) :
    countPushes (Effect.push t ::
      (List.replicate (i + 1) (Effect.pollSlot id) ++ [Effect.delSlot id])) = 1 := by
  unfold countPushes
  rw [List.countP_cons, List.countP_append, countP_replicate]
  norm_num [List.countP_cons]

end MyachPro

namespace MyachPro

/-! ### Claim theorems -/

/-- Claim C1, counterexample.  In the owning process with the messaging
channel unavailable, `sendImage` with a valid buffer does interact with the
broker: it pushes one task onto the shared queue and polls the result slot
450 times, so it neither returns immediately nor avoids the broker. -/
theorem sendImage_owning_unavailable_counterexample :
    cenvC1.isMasterProcess = true ∧ cenvC1.botAvailable = false ∧
    countPushes (sendImage cenvC1 7 cbuf1KB "caption").2 = 1 ∧
    countPolls (sendImage cenvC1 7 cbuf1KB "caption").2 = 450 := by
  have he := sendImage_eq_enqueue cenvC1 7 cbuf1KB "caption" validate_cbuf1KB rfl
  have hfr : findResult cenvC1.resultAt 450 0 = none :=
    findResult_eq_none _ 450 0 (fun j _ _ => rfl)
  have h2 : (sendImage cenvC1 7 cbuf1KB "caption").2 =
      Effect.push ⟨cenvC1.taskId, 7, cbuf1KB, "caption", cenvC1.now⟩ ::
        List.replicate 450 (Effect.pollSlot cenvC1.taskId) := by
    rw [he, enqueueAndPoll_eq_none cenvC1 7 cbuf1KB "caption" hfr]
  refine ⟨rfl, rfl, ?_, ?_⟩
  · rw [h2]; exact countPushes_trace_none _ _
  · rw [h2]; exact countPolls_trace_none _ _

/-- Claim C1, amended.  A `sendImage` call in the owning process with the
channel unavailable and a buffer that passes validation does not return
immediately: it falls through to the non-owning path, pushing exactly one
task onto the shared queue and polling the result slot. -/
theorem sendImage_owning_unavailable_enqueues (env : SendEnv) (chatId : Int)
    (buffer : List Nat) (caption : String) (_hm : env.isMasterProcess = true)
    (hb : env.botAvailable = false) (hv : validateImageBuffer buffer = true) :
    sendImage env chatId buffer caption = enqueueAndPoll env chatId buffer caption ∧
    countPushes (sendImage env chatId buffer caption).2 = 1 := by
  have hng : (env.isMasterProcess && env.botAvailable) = false := by
    rw [hb, Bool.and_false]
  have he := sendImage_eq_enqueue env chatId buffer caption hv hng
  refine ⟨he, ?_⟩
  cases hfr : findResult env.resultAt 450 0 with
  | none =>
    have h2 : (sendImage env chatId buffer caption).2 =
        Effect.push ⟨env.taskId, chatId, buffer, caption, env.now⟩ ::
          List.replicate 450 (Effect.pollSlot env.taskId) := by
      rw [he, enqueueAndPoll_eq_none env chatId buffer caption hfr]
    rw [h2]; exact countPushes_trace_none _ _
  | some p =>
    obtain ⟨i, r⟩ := p
    have h2 : (sendImage env chatId buffer caption).2 =
        Effect.push ⟨env.taskId, chatId, buffer, caption, env.now⟩ ::
          (List.replicate (i + 1) (Effect.pollSlot env.taskId) ++
            [Effect.delSlot env.taskId]) := by
      rw [he, enqueueAndPoll_eq_some env chatId buffer caption i r hfr]
    rw [h2]; exact countPushes_trace_some _ _ _

/-- Witness for the amended C1 at a concrete owning-process environment. -/
theorem sendImage_owning_unavailable_enqueues_witness :
    cenvC1.isMasterProcess = true ∧ cenvC1.botAvailable = false ∧
    validateImageBuffer cbuf1KB = true ∧
    countPushes (sendImage cenvC1 2 cbuf1KB "c").2 = 1 :=
  ⟨rfl, rfl, validate_cbuf1KB,
    (sendImage_owning_unavailable_enqueues cenvC1 2 cbuf1KB "c" rfl rfl
      validate_cbuf1KB).2⟩

/-- Claim C4.  A non-owning `deliver` call with a valid buffer polls the
result slot at most 450 times; if no result is ever posted within the poll
budget it returns `false` after exactly 450 polls; if the first result
appears at poll `i` it returns that result's success flag, deletes the
result slot, and has polled exactly `i + 1` times.  The call is a total
function into `Bool`, so it cannot throw. -/
theorem sendImage_nonowning_poll (env : SendEnv) (chatId : Int) (buffer : List Nat)
    (caption : String) (hv : validateImageBuffer buffer = true)
    (hw : env.isMasterProcess = false) :
    countPolls (sendImage env chatId buffer caption).2 ≤ 450 ∧
    ((∀ i, i < 450 → env.resultAt i = none) →
      (sendImage env chatId buffer caption).1 = false ∧
      countPolls (sendImage env chatId buffer caption).2 = 450) ∧
    (∀ i r, i < 450 → env.resultAt i = some r →
      (∀ j, j < i → env.resultAt j = none) →
      (sendImage env chatId buffer caption).1 = r.success ∧
      Effect.delSlot env.taskId ∈ (sendImage env chatId buffer caption).2 ∧
      countPolls (sendImage env chatId buffer caption).2 = i + 1) := by
  have hng : (env.isMasterProcess && env.botAvailable) = false := by
    rw [hw, Bool.false_and]
  have he := sendImage_eq_enqueue env chatId buffer caption hv hng
  cases hfr : findResult env.resultAt 450 0 with
  | none =>
    have h1 : (sendImage env chatId buffer caption).1 = false := by
      rw [he, enqueueAndPoll_eq_none env chatId buffer caption hfr]
    have h2 : (sendImage env chatId buffer caption).2 =
        Effect.push ⟨env.taskId, chatId, buffer, caption, env.now⟩ ::
          List.replicate 450 (Effect.pollSlot env.taskId) := by
      rw [he, enqueueAndPoll_eq_none env chatId buffer caption hfr]
    have hcp : countPolls (sendImage env chatId buffer caption).2 = 450 := by
      rw [h2]; exact countPolls_trace_none _ _
    refine ⟨by omega, ?_, ?_⟩
    · intro _; exact ⟨h1, hcp⟩
    · intro i r hi hres hmin
      have hsame := findResult_eq_some env.resultAt 450 0 i r (Nat.zero_le i)
        (by omega) hres (fun j _ hj => hmin j hj)
      rw [hfr] at hsame
      exact absurd hsame (by simp)
  | some p =>
    obtain ⟨i₀, r₀⟩ := p
    obtain ⟨-, hb₀, hres₀⟩ := findResult_bound env.resultAt 450 0 i₀ r₀ hfr
    have h1 : (sendImage env chatId buffer caption).1 = r₀.success := by
      rw [he, enqueueAndPoll_eq_some env chatId buffer caption i₀ r₀ hfr]
    have h2 : (sendImage env chatId buffer caption).2 =
        Effect.push ⟨env.taskId, chatId, buffer, caption, env.now⟩ ::
          (List.replicate (i₀ + 1) (Effect.pollSlot env.taskId) ++
            [Effect.delSlot env.taskId]) := by
      rw [he, enqueueAndPoll_eq_some env chatId buffer caption i₀ r₀ hfr]
    have hcp : countPolls (sendImage env chatId buffer caption).2 = i₀ + 1 := by
      rw [h2]; exact countPolls_trace_some _ _ _
    refine ⟨by omega, ?_, ?_⟩
    · intro hall
      exact absurd hres₀ (by rw [hall i₀ (by omega)]; simp)
    · intro i r hi hres hmin
      have hsame := findResult_eq_some env.resultAt 450 0 i r (Nat.zero_le i)
        (by omega) hres (fun j _ hj => hmin j hj)
      rw [hfr] at hsame
      injection hsame with h'
      injection h' with hi' hr'
      subst hi'
      subst hr'
      refine ⟨h1, ?_, hcp⟩
      rw [h2]
      exact List.mem_cons_of_mem _ (List.mem_append_right _ (List.mem_singleton_self _))

/-- Witness for C4: a result posted at the third poll is read, the slot
is deleted, and the success flag is returned after three polls. -/
theorem sendImage_nonowning_poll_witness :
    validateImageBuffer cbuf1KB = true ∧ cenvC4.isMasterProcess = false ∧
    (sendImage cenvC4 3 cbuf1KB "cap").1 = true ∧
    countPolls (sendImage cenvC4 3 cbuf1KB "cap").2 = 3 := by
  have h := sendImage_nonowning_poll cenvC4 3 cbuf1KB "cap" validate_cbuf1KB rfl
  have h4 := h.2.2 2 ⟨true, none⟩ (by omega) rfl (by decide)
  exact ⟨validate_cbuf1KB, rfl, by rw [h4.1], h4.2.2⟩

/-- Claim C10.  `sendImage` validates the buffer at entry in every process:
an invalid buffer returns `false` with an empty interaction trace (no queue
push, no poll, no direct send), and every task ever pushed onto the shared
queue by `sendImage` carries a payload that passed validation. -/
theorem sendImage_validates_at_entry :
    (∀ (env : SendEnv) (chatId : Int) (buffer : List Nat) (caption : String),
      validateImageBuffer buffer = false →
      sendImage env chatId buffer caption = (false, [])) ∧
    (∀ (env : SendEnv) (chatId : Int) (buffer : List Nat) (caption : String)
      (t : ImageTask), Effect.push t ∈ (sendImage env chatId buffer caption).2 →
      validateImageBuffer t.imageBuffer = true) := by
  constructor
  · intro env chatId buffer caption hv
    unfold sendImage
    rw [hv, if_pos rfl]
  · intro env chatId buffer caption t hmem
    by_cases hv : validateImageBuffer buffer = false
    · rw [sendImage, hv] at hmem
      simp at hmem
    · have hv' : validateImageBuffer buffer = true := by
        revert hv; cases validateImageBuffer buffer <;> simp
      cases hmb : env.isMasterProcess && env.botAvailable with
      | true =>
        unfold sendImage at hmem
        rw [hv', hmb] at hmem
        cases hds : env.directSend with
        | ok b => rw [hds] at hmem; simp at hmem
        | error m => rw [hds] at hmem; simp at hmem
      | false =>
        have he := sendImage_eq_enqueue env chatId buffer caption hv' hmb
        cases hfr : findResult env.resultAt 450 0 with
        | none =>
          have h2 : (sendImage env chatId buffer caption).2 =
              Effect.push ⟨env.taskId, chatId, buffer, caption, env.now⟩ ::
                List.replicate 450 (Effect.pollSlot env.taskId) := by
            rw [he, enqueueAndPoll_eq_none env chatId buffer caption hfr]
          rw [h2] at hmem
          simp only [List.mem_cons, List.mem_replicate] at hmem
          rcases hmem with h | h
          · injection h with h'; rw [h']; exact hv'
          · exact absurd h.2 (by simp)
        | some p =>
          obtain ⟨i, r⟩ := p
          have h2 : (sendImage env chatId buffer caption).2 =
              Effect.push ⟨env.taskId, chatId, buffer, caption, env.now⟩ ::
                (List.replicate (i + 1) (Effect.pollSlot env.taskId) ++
                  [Effect.delSlot env.taskId]) := by
            rw [he, enqueueAndPoll_eq_some env chatId buffer caption i r hfr]
          rw [h2] at hmem
          simp only [List.mem_cons, List.mem_append, List.mem_replicate,
            List.mem_singleton] at hmem
          rcases hmem with h | ⟨_, h⟩ | h
          · injection h with h'; rw [h']; exact hv'
          · exact absurd h (by simp)
          · exact absurd h (by simp)

/-- Witness for C10: the empty buffer fails validation and produces no
broker interaction at all. -/
theorem sendImage_validates_at_entry_witness :
    validateImageBuffer [] = false ∧ sendImage cenvC1 1 [] "c" = (false, []) :=
  ⟨rfl, sendImage_validates_at_entry.1 cenvC1 1 [] "c" rfl⟩

/-- Claim C2.  A decoded payload that is empty, shorter than 1024 bytes,
longer than 20 MB, or not starting with `FF D8 FF` fails validation; for
any such payload the consumer performs no send attempt and records a
failed result with an error message; a send attempt only ever happens for
a payload that passed validation; and a 2 MB buffer starting with the
JPEG marker passes validation. -/
theorem consumer_validates_before_send :
    (∀ (buffer : List Nat),
      buffer.length = 0 ∨ buffer.length < 1024 ∨ 20 * 1024 * 1024 < buffer.length ∨
        jpegMarkerOk buffer = false →
      validateImageBuffer buffer = false ∧
      ∀ (env : HandleEnv) (task : ImageTask), task.imageBuffer = buffer →
        sendAttempted (handleImageTask env task) = false ∧
        ∀ w ∈ writesOf (handleImageTask env task),
          w.value.success = false ∧ w.value.error.isSome = true) ∧
    (∀ (env : HandleEnv) (task : ImageTask),
      sendAttempted (handleImageTask env task) = true →
      validateImageBuffer task.imageBuffer = true) ∧
    validateImageBuffer cbuf2MB = true := by
  refine ⟨?_, ?_, validate_cbuf2MB⟩
  · intro buffer h
    have hval : validateImageBuffer buffer = false := by
      unfold validateImageBuffer
      rcases h with h | h | h | h
      · rw [if_pos h]
      · by_cases h0 : buffer.length = 0
        · rw [if_pos h0]
        · rw [if_neg h0, if_pos h]
      · by_cases h0 : buffer.length = 0
        · rw [if_pos h0]
        · by_cases h1 : buffer.length < 1024
          · rw [if_neg h0, if_pos h1]
          · rw [if_neg h0, if_neg h1, if_pos h]
      · by_cases h0 : buffer.length = 0
        · rw [if_pos h0]
        · by_cases h1 : buffer.length < 1024
          · rw [if_neg h0, if_pos h1]
          · by_cases h2 : 20 * 1024 * 1024 < buffer.length
            · rw [if_neg h0, if_neg h1, if_pos h2]
            · rw [if_neg h0, if_neg h1, if_neg h2]; exact h
    refine ⟨hval, ?_⟩
    intro env task htb
    unfold handleImageTask
    rw [htb]
    by_cases hb : env.botAvailable = false
    · rw [if_pos hb]
      refine ⟨rfl, ?_⟩
      intro w hw
      simp only [writesOf, List.filterMap] at hw
      simp at hw
      rw [hw]
      exact ⟨rfl, rfl⟩
    · rw [if_neg hb, if_pos hval]
      refine ⟨rfl, ?_⟩
      intro w hw
      simp only [writesOf, List.filterMap] at hw
      simp at hw
      rw [hw]
      exact ⟨rfl, rfl⟩
  · intro env task hs
    by_cases hb : env.botAvailable = false
    · unfold handleImageTask at hs
      rw [if_pos hb] at hs
      simp [sendAttempted] at hs
    · by_cases hv : validateImageBuffer task.imageBuffer = false
      · unfold handleImageTask at hs
        rw [if_neg hb, if_pos hv] at hs
        simp [sendAttempted] at hs
      · revert hv
        cases validateImageBuffer task.imageBuffer <;> simp

/-- Witness for C2: the empty buffer is rejected and never reaches the
send call in the consumer. -/
theorem consumer_validates_before_send_witness :
    validateImageBuffer [] = false ∧
    sendAttempted (handleImageTask ⟨true, Except.ok true⟩ ⟨"t", 1, [], "c", 0⟩) = false := by
  have h := consumer_validates_before_send.1 [] (Or.inl rfl)
  exact ⟨h.1, (h.2 ⟨true, Except.ok true⟩ ⟨"t", 1, [], "c", 0⟩ rfl).1⟩

/-- Claim C5.  Every consumer run writes exactly one result, keyed
`image_result:<taskId>`, with a 60 second TTL; its success flag is true
exactly when the channel was available, the payload validated, and the
send returned true; and an error message is present whenever the channel
was unavailable, validation failed, or the send threw with a non-empty
message (`errorMessage || undefined` stores no field for an empty one). -/
theorem consumer_always_writes_result (env : HandleEnv) (task : ImageTask) :
    ∃ w : WriteOp,
      writesOf (handleImageTask env task) = [w] ∧
      w.key = "image_result:" ++ task.id ∧
      w.ttlSeconds = 60 ∧
      (w.value.success = true ↔
        env.botAvailable = true ∧ validateImageBuffer task.imageBuffer = true ∧
          env.sendOutcome = Except.ok true) ∧
      (env.botAvailable = false ∨ validateImageBuffer task.imageBuffer = false ∨
          (∃ m, env.sendOutcome = Except.error m ∧ m ≠ "") →
        w.value.error.isSome = true) := by
  unfold handleImageTask
  by_cases hb : env.botAvailable = false
  · rw [if_pos hb]
    refine ⟨_, rfl, rfl, rfl, by simp [hb], fun _ => rfl⟩
  · have hb' : env.botAvailable = true := by
      revert hb; cases env.botAvailable <;> simp
    rw [if_neg hb]
    by_cases hv : validateImageBuffer task.imageBuffer = false
    · rw [if_pos hv]
      refine ⟨_, rfl, rfl, rfl, by simp [hv], fun _ => rfl⟩
    · have hv' : validateImageBuffer task.imageBuffer = true := by
        revert hv; cases validateImageBuffer task.imageBuffer <;> simp
      rw [if_neg hv]
      cases hso : env.sendOutcome with
      | ok b =>
        refine ⟨⟨"image_result:" ++ task.id, 60, ⟨b, none⟩⟩, rfl, rfl, rfl, ?_, ?_⟩
        · simp [hb', hv']
        · simp [hb', hv', hso]
      | error m =>
        refine ⟨⟨"image_result:" ++ task.id, 60,
          ⟨false, if m = "" then none else some m⟩⟩, rfl, rfl, rfl, ?_, ?_⟩
        · simp
        · rintro (h | h | ⟨m', hm', hne⟩)
          · exact absurd hb' (by rw [h]; simp)
          · exact absurd hv' (by rw [h]; simp)
          · injection hm' with hm''
            rw [if_neg (show ¬(m = "") by rw [hm'']; exact hne)]
            rfl

/-- Witness for C5 at a concrete consumer run with a successful send. -/
theorem consumer_always_writes_result_witness :
    ∃ w : WriteOp,
      writesOf (handleImageTask ⟨true, Except.ok true⟩ ⟨"t1", 1, cbuf1KB, "c", 0⟩) = [w] ∧
      w.key = "image_result:" ++ "t1" ∧ w.ttlSeconds = 60 := by
  obtain ⟨w, h1, h2, h3, -, -⟩ :=
    consumer_always_writes_result ⟨true, Except.ok true⟩ ⟨"t1", 1, cbuf1KB, "c", 0⟩
  exact ⟨w, h1, h2, h3⟩

/-- Claim C6.  For every viewport and caller-requested quality in the
documented 1–100 range, the worker's screenshot call is JPEG, clipped to
the rectangle (0, 0, width, height) with `fullPage` off, and its quality
is the requested quality floor-clamped to at least 85. -/
theorem screenshot_jpeg_clipped_quality (w h q : Nat) (hq : q ≤ 100) :
    (screenshotOpts w h q).imgType = "jpeg" ∧
    (screenshotOpts w h q).fullPage = false ∧
    (screenshotOpts w h q).clipX = 0 ∧ (screenshotOpts w h q).clipY = 0 ∧
    (screenshotOpts w h q).clipWidth = w ∧ (screenshotOpts w h q).clipHeight = h ∧
    (screenshotOpts w h q).quality = max 85 q ∧
    85 ≤ (screenshotOpts w h q).quality := by
  refine ⟨rfl, rfl, rfl, rfl, rfl, rfl, ?_, ?_⟩
  · show max 85 (min 100 q) = max 85 q
    omega
  · show 85 ≤ max 85 (min 100 q)
    omega

/-- Witness for C6: a requested quality of 40 is raised to 85. -/
theorem screenshot_jpeg_clipped_quality_witness :
    (40 : Nat) ≤ 100 ∧ (screenshotOpts 550 800 40).imgType = "jpeg" ∧
    (screenshotOpts 550 800 40).quality = max 85 40 := by
  have h := screenshot_jpeg_clipped_quality 550 800 40 (by omega)
  exact ⟨by omega, h.1, h.2.2.2.2.2.2.1⟩

theorem settleEvent_ok (e : WorkerEvent) (buf : List Nat)
    (h : settleEvent e = some (Except.ok buf)) :
    ∃ err, e = WorkerEvent.message true (some buf) err := by
  cases e with
  | message s ib err =>
    cases s
    · cases ib <;> simp [settleEvent] at h
    · cases ib with
      | some b =>
        simp [settleEvent] at h
        rw [h]
        exact ⟨err, rfl⟩
      | none => simp [settleEvent] at h
  | workerError m => simp [settleEvent] at h
  | exited c =>
    cases c with
    | zero => simp [settleEvent] at h
    | succ n => simp [settleEvent] at h
  | timeout => simp [settleEvent, workerTimeoutMsg] at h

theorem firstSettle_ok (es : List WorkerEvent) (buf : List Nat)
    (h : firstSettle es = some (Except.ok buf)) :
    ∃ err, WorkerEvent.message true (some buf) err ∈ es := by
  induction es with
  | nil => simp [firstSettle] at h
  | cons e es ih =>
    rw [firstSettle] at h
    cases hse : settleEvent e with
    | some r =>
      rw [hse] at h
      injection h with h'
      obtain ⟨err, he⟩ := settleEvent_ok e buf (by rw [hse, h'])
      exact ⟨err, by rw [he]; exact List.mem_cons_self _ _⟩
    | none =>
      rw [hse] at h
      obtain ⟨err, hm⟩ := ih h
      exact ⟨err, List.mem_cons_of_mem _ hm⟩

/-- Claim C7.  The renderer call settles only in one of two shapes: bytes
from a worker success message carrying exactly those bytes (never partial
data), or a failure with a message — a success reply resolves its bytes,
an in-worker exception (engine launch failure included) becomes a failure
message, a worker error event and a nonzero exit become failure messages,
and the 60 s timeout event rejects with the timeout message after forcibly
terminating the worker. -/
theorem renderToImage_failure_shape :
    (∀ (es : List WorkerEvent) (buf : List Nat),
      firstSettle es = some (Except.ok buf) →
      ∃ err, WorkerEvent.message true (some buf) err ∈ es) ∧
    (∀ buf : List Nat,
      settleEvent (workerReply (Except.ok buf)) = some (Except.ok buf)) ∧
    (∀ m : String, ∃ m2,
      settleEvent (workerReply (Except.error m)) = some (Except.error m2)) ∧
    (∀ m : String,
      settleEvent (WorkerEvent.workerError m) = some (Except.error m)) ∧
    (∀ c : Nat, c ≠ 0 →
      ∃ m, settleEvent (WorkerEvent.exited c) = some (Except.error m)) ∧
    settleEvent WorkerEvent.timeout = some (Except.error workerTimeoutMsg) ∧
    terminatesWorker WorkerEvent.timeout = true := by
  refine ⟨firstSettle_ok, fun buf => rfl, ?_, fun m => rfl, ?_, rfl, rfl⟩
  · intro m
    exact ⟨failureMessage (some m), rfl⟩
  · intro c hc
    cases c with
    | zero => exact absurd rfl hc
    | succ n => exact ⟨_, rfl⟩

/-- Witness for C7: a success message resolves with exactly its bytes, and
a nonzero worker exit rejects with a message. -/
theorem renderToImage_failure_shape_witness :
    firstSettle [WorkerEvent.message true (some [1, 2]) none] =
      some (Except.ok [1, 2]) ∧
    (∃ err, WorkerEvent.message true (some [1, 2]) err ∈
      [WorkerEvent.message true (some [1, 2]) none]) ∧
    (∃ m, settleEvent (WorkerEvent.exited 1) = some (Except.error m)) :=
  ⟨rfl, renderToImage_failure_shape.1 _ _ rfl,
    renderToImage_failure_shape.2.2.2.2.1 1 (by omega)⟩

/-- Claim C8.  A render whose club id resolves to no stored club fails
with the not-found error, performs no storage batch call and no renderer
call, and produces no bytes. -/
theorem render_club_not_found_fatal (db : DB) (renderer : Except String (List Nat))
    (data : ShareImageData) (h : db.findClub data.clubId = none) :
    generateResultsImage db renderer data = (Except.error "Клуб не найден", []) := by
  unfold generateResultsImage getClubAndPlayersData
  rw [h]

/-- Witness for C8 on the club id `"missing"` against an empty store. -/
theorem render_club_not_found_fatal_witness :
    dbEmpty.findClub dataMissing.clubId = none ∧
    generateResultsImage dbEmpty (Except.ok [1]) dataMissing =
      (Except.error "Клуб не найден", []) :=
  ⟨rfl, render_club_not_found_fatal dbEmpty (Except.ok [1]) dataMissing rfl⟩

/-- Claim C3, counterexample.  On a resolvable one-category request the
render performs two logo batch calls and two avatar batch calls, not one
of each: `generateResultsImage` resolves the club data directly and again
inside `generateHTML`. -/
theorem render_single_batch_counterexample :
    countLogoBatches (generateResultsImage dbC1 (Except.ok [1]) dataC1).2 = 2 ∧
    countAvatarBatches (generateResultsImage dbC1 (Except.ok [1]) dataC1).2 = 2 := by
  constructor <;> rfl

/-- Claim C3, amended.  Each `getClubAndPlayersData` call performs exactly
one logo batch call and one avatar batch call, but a render invokes it
twice (directly and through HTML generation), so every render with a
resolvable club performs exactly two batch calls for logos and two for
avatars. -/
theorem render_two_batches (db : DB) (renderer : Except String (List Nat))
    (data : ShareImageData) (club : Club)
    (h : db.findClub data.clubId = some club) :
    countLogoBatches (generateResultsImage db renderer data).2 = 2 ∧
    countAvatarBatches (generateResultsImage db renderer data).2 = 2 ∧
    countLogoBatches (getClubAndPlayersData db data).2 = 1 ∧
    countAvatarBatches (getClubAndPlayersData db data).2 = 1 := by
  cases renderer with
  | ok bytes =>
    simp only [generateResultsImage, generateHTML, getClubAndPlayersData, h]
    refine ⟨?_, ?_, ?_, ?_⟩ <;>
      simp [countLogoBatches, countAvatarBatches, List.countP_cons, List.countP_append]
  | error e =>
    simp only [generateResultsImage, generateHTML, getClubAndPlayersData, h]
    refine ⟨?_, ?_, ?_, ?_⟩ <;>
      simp [countLogoBatches, countAvatarBatches, List.countP_cons, List.countP_append]

/-- Witness for the amended C3 on the concrete club `"c1"`. -/
theorem render_two_batches_witness :
    dbC1.findClub dataC1.clubId = some ⟨"Club One", none⟩ ∧
    countLogoBatches (generateResultsImage dbC1 (Except.ok [1]) dataC1).2 = 2 :=
  ⟨rfl, (render_two_batches dbC1 (Except.ok [1]) dataC1 ⟨"Club One", none⟩ rfl).1⟩

/-- Claim C9.  Starting from an empty cache: a second `load` within the
TTL window returns the first call's string with no read and no probe (so
for a present file the two calls perform exactly one read, and for an
absent file both calls return `""` with no second disk probe), and a third
call after TTL expiry performs exactly as many reads as the first call
(one more read for a present file). -/
theorem resource_cache_reads (fsFiles : String → Option String) (name : String)
    (t1 t2 t3 : Nat) (h12 : t2 - t1 < resourceTTL) (h13 : ¬(t3 - t1 < resourceTTL)) :
    (loadFontAsBase64 fsFiles t2 (loadFontAsBase64 fsFiles t1 [] name).cache name).result =
      (loadFontAsBase64 fsFiles t1 [] name).result ∧
    (loadFontAsBase64 fsFiles t2 (loadFontAsBase64 fsFiles t1 [] name).cache name).reads = 0 ∧
    (loadFontAsBase64 fsFiles t2 (loadFontAsBase64 fsFiles t1 [] name).cache name).probes = 0 ∧
    (loadFontAsBase64 fsFiles t1 [] name).reads =
      (if (fsFiles name).isSome then 1 else 0) ∧
    (fsFiles name = none →
      (loadFontAsBase64 fsFiles t1 [] name).result = "" ∧
      (loadFontAsBase64 fsFiles t2 (loadFontAsBase64 fsFiles t1 [] name).cache name).result = "") ∧
    (loadFontAsBase64 fsFiles t3
        (loadFontAsBase64 fsFiles t2 (loadFontAsBase64 fsFiles t1 [] name).cache name).cache
        name).reads =
      (loadFontAsBase64 fsFiles t1 [] name).reads := by
  have hv2 : isCacheValid t2 t1 = true := by
    unfold isCacheValid; exact decide_eq_true h12
  have hv3 : isCacheValid t3 t1 = false := by
    unfold isCacheValid; exact decide_eq_false h13
  cases hfs : fsFiles name with
  | none =>
    have h1 : loadFontAsBase64 fsFiles t1 [] name = ⟨"", [(name, ⟨"", t1⟩)], 0, 1⟩ := by
      simp [loadFontAsBase64, hfs]
    have hl2 : List.lookup name [(name, (⟨"", t1⟩ : CacheEntry))] = some ⟨"", t1⟩ := by
      simp [List.lookup]
    have h2 : loadFontAsBase64 fsFiles t2 [(name, ⟨"", t1⟩)] name =
        ⟨"", [(name, ⟨"", t1⟩)], 0, 0⟩ := by
      simp [loadFontAsBase64, hl2, hv2]
    have h3 : loadFontAsBase64 fsFiles t3 [(name, ⟨"", t1⟩)] name =
        ⟨"", (name, ⟨"", t3⟩) :: [(name, ⟨"", t1⟩)], 0, 1⟩ := by
      simp [loadFontAsBase64, hl2, hv3, hfs]
    rw [h1, h2, h3]
    simp [hfs]
  | some s =>
    have h1 : loadFontAsBase64 fsFiles t1 [] name = ⟨s, [(name, ⟨s, t1⟩)], 1, 1⟩ := by
      simp [loadFontAsBase64, hfs]
    have hl2 : List.lookup name [(name, (⟨s, t1⟩ : CacheEntry))] = some ⟨s, t1⟩ := by
      simp [List.lookup]
    have h2 : loadFontAsBase64 fsFiles t2 [(name, ⟨s, t1⟩)] name =
        ⟨s, [(name, ⟨s, t1⟩)], 0, 0⟩ := by
      simp [loadFontAsBase64, hl2, hv2]
    have h3 : loadFontAsBase64 fsFiles t3 [(name, ⟨s, t1⟩)] name =
        ⟨s, (name, ⟨s, t3⟩) :: [(name, ⟨s, t1⟩)], 1, 1⟩ := by
      simp [loadFontAsBase64, hl2, hv3, hfs]
    rw [h1, h2, h3]
    simp [hfs]

/-- Witness for C9 on a one-font file system: the second call within the
TTL does no I/O. -/
theorem resource_cache_reads_witness :
    (1 - 0 < resourceTTL) ∧ ¬(3600000 - 0 < resourceTTL) ∧
    (loadFontAsBase64 fsOneFont 1
      (loadFontAsBase64 fsOneFont 0 [] "Montserrat-Regular.ttf").cache
      "Montserrat-Regular.ttf").reads = 0 := by
  have h := resource_cache_reads fsOneFont "Montserrat-Regular.ttf" 0 1 3600000
    (by norm_num [resourceTTL]) (by norm_num [resourceTTL])
  exact ⟨by norm_num [resourceTTL], by norm_num [resourceTTL], h.2.1⟩

end MyachPro
